import Mathlib

/-!
Verification development for the `pvlib_forecast` repository
(custom_components/pvlib_forecast).  The Python source is shallowly
embedded in Lean:

* timestamps are modelled as natural numbers counting seconds;
* a pandas `DataFrame` holding weather observations is a list of rows
  together with a flag recording whether the `datetime` column exists
  (a `pd.DataFrame()` or `pd.DataFrame([])` has no columns at all);
* Python scalar values that can sit in a `cloud_coverage` cell are the
  inductive `PyVal` (`None`, float `nan`, or a numeric value);
* fallible pandas operations (`drop_duplicates(subset=...)` and column
  access on a frame without that column raise `KeyError`) return
  `Except String`;
* the real-valued irradiance formulas of `pvlib_misc.py` are embedded
  over `ℝ`, with `numpy` `exp`/`cos`/`arccos`/`**` mapped to
  `Real.exp`/`Real.cos`/`Real.arccos`/`Real.rpow`.
-/

/-- A Python value that may appear in the `cloud_coverage` cell of a
forecast row: `None`, the float `nan` (what pandas stores when the key
is absent from some rows), or an ordinary number. -/
inductive PyVal where
  | none : PyVal
  | nan : PyVal
  | num : ℚ → PyVal
deriving DecidableEq, Repr

/-- Python truthiness of a `PyVal`: `None` is falsy, `nan` is truthy,
a number is truthy iff it is nonzero. -/
def PyVal.truthy : PyVal → Bool
  | PyVal.none => false
  | PyVal.nan => true
  | PyVal.num q => q != 0

/-- `x or 0` in Python: the value itself when truthy, else the number 0.
This is the expression `entry.cloud_coverage or 0` in
`coordinator.py` line 143. -/
def orZero (v : PyVal) : PyVal := if v.truthy then v else PyVal.num 0

/-- One weather observation row: a (already hour-normalised) timestamp in
seconds and the `cloud_coverage` cell. -/
structure WRow where
  datetime : ℕ
  cloud_coverage : PyVal
deriving DecidableEq, Repr

/-- `datetime.now(utc).replace(hour=0, minute=0, second=0, microsecond=0)`:
the start of the calendar day containing `t` (seconds). -/
def startOfUTCDay (t : ℕ) : ℕ := t / 86400 * 86400

/-- `pd.Timestamp(x).floor('h')` / `now.replace(minute=0, second=0,
microsecond=0)`: `t` truncated to the hour. -/
def floorHourTime (t : ℕ) : ℕ := t / 3600 * 3600

/-- The time grid built in `coordinator.py` lines 79-84:
`pd.date_range(start=now.replace(hour=0,...), end=now.replace(minute=0,...)
 + timedelta(days=7), freq='h')`.  Since both endpoints are hour-aligned,
`date_range` yields the inclusive arithmetic progression with step one
hour. -/
def timeGrid (now : ℕ) : List ℕ :=
  List.map (fun i => startOfUTCDay now + 3600 * i)
    (List.range ((floorHourTime now + 7 * 86400 - startOfUTCDay now) / 3600 + 1))

/-- A pandas `DataFrame` of weather observations: its rows plus whether
the `datetime` column is present.  `pd.DataFrame()` and
`pd.DataFrame([])` have `hasDatetimeCol = false`; a frame built from a
nonempty list of forecast dicts (each carrying a `datetime` key) has
`hasDatetimeCol = true`. -/
structure WeatherDF where
  rows : List WRow
  hasDatetimeCol : Bool
deriving DecidableEq, Repr

/-- `pd.DataFrame(forecast_list)`: the `datetime` column exists exactly
when the list is nonempty. -/
def dataFrameOf (rows : List WRow) : WeatherDF :=
  WeatherDF.mk rows (!rows.isEmpty)

namespace WeatherDataCache

/-- `WeatherDataCache.__init__`: `self.data = pd.DataFrame()`. -/
def init : WeatherDF := WeatherDF.mk [] false

end WeatherDataCache

/-- `drop_duplicates(subset='datetime', keep='last')` on the row list:
keep a row iff no later row has the same `datetime`; the order of the
kept rows is preserved. -/
def dedupeLast (rows : List WRow) : List WRow :=
  rows.foldr
    (fun r acc => if acc.any (fun x => x.datetime == r.datetime) then acc else r :: acc)
    []

/-- `self.data[self.data['datetime'] >= today_utc]`
(`weather_cache.py` line 19): drop rows strictly before the start of the
UTC day of `now`. -/
def cleanRows (rows : List WRow) (now : ℕ) : List WRow :=
  rows.filter (fun r => decide (startOfUTCDay now ≤ r.datetime))

/-- The last row of `rows` carrying timestamp `t`, if any. -/
def lastRowWith : List WRow → ℕ → Option WRow
  | [], _ => Option.none
  | r :: rs, t =>
    match lastRowWith rs t with
    | Option.some x => Option.some x
    | Option.none => if r.datetime = t then Option.some r else Option.none

namespace WeatherDataCache

/-- `WeatherDataCache.upsert` (`weather_cache.py` lines 9-13):
`self.data = pd.concat([self.data, new_data]).drop_duplicates(
subset='datetime', keep='last')` followed by `self.clean()`.
`pd.concat` unions the columns, so the result has a `datetime` column
iff either operand does; `drop_duplicates(subset='datetime')` raises
`KeyError` when that column is missing.  On a raise the assignment to
`self.data` does not happen, so the cache state is unchanged. -/
def upsertE (cache new : WeatherDF) (now : ℕ) : Except String WeatherDF :=
  if cache.hasDatetimeCol || new.hasDatetimeCol then
    Except.ok (WeatherDF.mk (cleanRows (dedupeLast (cache.rows ++ new.rows)) now) true)
  else
    Except.error "KeyError: datetime"

/-- `WeatherDataCache.get_data`: runs `self.clean()` (which indexes the
`datetime` column, raising `KeyError` when the frame has no columns)
and returns the cleaned frame, which is also the new cache state. -/
def readE (cache : WeatherDF) (now : ℕ) : Except String WeatherDF :=
  if cache.hasDatetimeCol then
    Except.ok (WeatherDF.mk (cleanRows cache.rows now) true)
  else
    Except.error "KeyError: datetime"

end WeatherDataCache

/-- One externally-triggered cache operation, with the wall-clock time at
which it runs (`datetime.now(pytz.utc)` inside `clean`). -/
inductive CacheOp where
  | upsert (new : WeatherDF) (now : ℕ) : CacheOp
  | read (now : ℕ) : CacheOp

/-- Execute one cache operation; a raised `KeyError` propagates to the
caller and leaves the cache state unchanged. -/
def CacheOp.step (s : WeatherDF) : CacheOp → WeatherDF
  | CacheOp.upsert new now =>
      match WeatherDataCache.upsertE s new now with
      | Except.ok s2 => s2
      | Except.error _ => s
  | CacheOp.read now =>
      match WeatherDataCache.readE s now with
      | Except.ok s2 => s2
      | Except.error _ => s

/-- The cache state reached from a fresh `WeatherDataCache()` after a
sequence of operations. -/
def runCacheOps (ops : List CacheOp) : WeatherDF :=
  ops.foldl CacheOp.step WeatherDataCache.init

/-! ### Real-valued irradiance formulas from `pvlib_misc.py` -/

/-- `np.radians`: degrees to radians. -/
noncomputable def radiansOf (x : ℝ) : ℝ := x * Real.pi / 180

/-- `np.degrees`: radians to degrees. -/
noncomputable def degreesOf (x : ℝ) : ℝ := x * 180 / Real.pi

/-- `get_relative_airmass` (`pvlib_misc.py` lines 94-109), the
Kasten-Young 1989 approximation
`1 / (cos(zenith_rad) + 0.50572 * (96.07995 - zenith)**-1.6364)`. -/
noncomputable def get_relative_airmass (zenith : ℝ) : ℝ :=
  1 / (Real.cos (radiansOf zenith) +
        0.50572 * (96.07995 - zenith) ^ (-(1.6364 : ℝ)))

/-- `get_absolute_airmass` (`pvlib_misc.py` lines 112-128):
`airmass_relative * (pressure / 101325.0)`. -/
noncomputable def get_absolute_airmass (airmass_relative : ℝ)
    (pressure : ℝ := 101325.0) : ℝ :=
  airmass_relative * (pressure / 101325.0)

/-- DISC coefficient `a` (`pvlib_misc.py` lines 172-175), split at
`kt <= 0.6` (cloudy) vs `kt > 0.6` (clear). -/
noncomputable def disc_a (kt : ℝ) : ℝ :=
  if kt ≤ 0.6 then 0.512 + kt * (-1.56 + kt * (2.286 - 2.222 * kt))
  else -5.743 + kt * (21.77 + kt * (-27.49 + 11.56 * kt))

/-- DISC coefficient `b` (`pvlib_misc.py` lines 176-179). -/
noncomputable def disc_b (kt : ℝ) : ℝ :=
  if kt ≤ 0.6 then 0.37 + 0.962 * kt
  else 41.4 + kt * (-118.5 + kt * (66.05 + 31.9 * kt))

/-- DISC coefficient `c` (`pvlib_misc.py` lines 180-183). -/
noncomputable def disc_c (kt : ℝ) : ℝ :=
  if kt ≤ 0.6 then -0.28 + kt * (0.932 - 2.048 * kt)
  else -47.01 + kt * (184.2 + kt * (-222.0 + 73.81 * kt))

/-- `Knc` (`pvlib_misc.py` line 188): clear-sky direct beam transmission,
a quartic in the (capped) airmass. -/
noncomputable def disc_Knc (am : ℝ) : ℝ :=
  0.866 + am * (-0.122 + am * (0.0121 + am * (-0.000653 + 1.4e-5 * am)))

/-- `Kn = Knc - delta_kn` with `delta_kn = a + b * exp(c * am)`
(`pvlib_misc.py` lines 185-189), at the already-capped airmass `am`. -/
noncomputable def disc_Kn (kt am : ℝ) : ℝ :=
  disc_Knc am - (disc_a kt + disc_b kt * Real.exp (disc_c kt * am))

/-- `dni = Kn * dni_extra` before the bad-value filter
(`pvlib_misc.py` line 192); the airmass is capped at `max_airmass`
(line 166). -/
noncomputable def disc_dni_raw (kt airmass dni_extra : ℝ)
    (max_airmass : ℝ := 12) : ℝ :=
  disc_Kn kt (min airmass max_airmass) * dni_extra

/-- The zenith angle the filter derives from the *uncapped* airmass
(`pvlib_misc.py` lines 195-196):
`degrees(arccos(maximum(min_cos_zenith, cos(radians(airmass)))))`. -/
noncomputable def disc_zenith (airmass : ℝ) (min_cos_zenith : ℝ := 0.065) : ℝ :=
  degreesOf (Real.arccos (max min_cos_zenith (Real.cos (radiansOf airmass))))

/-- `_disc_dni` (`pvlib_misc.py` lines 130-200): the raw DNI, zeroed on
`(zenith > max_zenith) | (kt < 0) | (dni < 0)` (lines 197-198). -/
noncomputable def disc_dni (kt airmass dni_extra : ℝ) (max_zenith : ℝ := 87)
    (min_cos_zenith : ℝ := 0.065) (max_airmass : ℝ := 12) : ℝ :=
  if max_zenith < disc_zenith airmass min_cos_zenith ∨ kt < 0 ∨
      disc_dni_raw kt airmass dni_extra max_airmass < 0 then 0
  else disc_dni_raw kt airmass dni_extra max_airmass

/-- `cloud_cover_to_ghi_linear` (`pvlib_misc.py` lines 203-232):
`offset := offset/100; cloud_cover := cloud_cover/100;
(offset + (1 - offset) * (1 - cloud_cover)) * ghi_clear`. -/
noncomputable def cloud_cover_to_ghi_linear (cloud_cover ghi_clear : ℝ)
    (offset : ℝ := 35) : ℝ :=
  (offset / 100 + (1 - offset / 100) * (1 - cloud_cover / 100)) * ghi_clear

/-- `cloud_cover_to_transmittance_linear` (`pvlib_misc.py` lines 235-252):
`((100.0 - cloud_cover) / 100.0) * offset`. -/
noncomputable def cloud_cover_to_transmittance_linear (cloud_cover : ℝ)
    (offset : ℝ := 0.75) : ℝ :=
  (100.0 - cloud_cover) / 100.0 * offset

/-- The Campbell-Norman DNI at one timestamp
(`pvlib_misc.py` lines 74-83): `dni = dni_extra * transmittance ** airmass`
with the absolute airmass derived from the apparent zenith. -/
noncomputable def campbell_norman_dni (apparent_zenith cloud_cover : ℝ)
    (pressure : ℝ := 101325.0) (dni_extra : ℝ := 1367.0) : ℝ :=
  dni_extra * cloud_cover_to_transmittance_linear cloud_cover ^
    get_absolute_airmass (get_relative_airmass apparent_zenith) pressure

/-- The Campbell-Norman DHI at one timestamp (`pvlib_misc.py` line 85):
`0.3 * (1.0 - transmittance ** airmass) * dni_extra * cos_zen`. -/
noncomputable def campbell_norman_dhi (apparent_zenith cloud_cover : ℝ)
    (pressure : ℝ := 101325.0) (dni_extra : ℝ := 1367.0) : ℝ :=
  0.3 * (1.0 - cloud_cover_to_transmittance_linear cloud_cover ^
      get_absolute_airmass (get_relative_airmass apparent_zenith) pressure) *
    dni_extra * Real.cos (radiansOf apparent_zenith)

/-- The Campbell-Norman GHI at one timestamp (`pvlib_misc.py` line 86):
`ghi = dhi + dni * cos_zen`. -/
noncomputable def campbell_norman_ghi (apparent_zenith cloud_cover : ℝ)
    (pressure : ℝ := 101325.0) (dni_extra : ℝ := 1367.0) : ℝ :=
  campbell_norman_dhi apparent_zenith cloud_cover pressure dni_extra +
    campbell_norman_dni apparent_zenith cloud_cover pressure dni_extra *
      Real.cos (radiansOf apparent_zenith)

/-! ### Daily-to-hourly synthesis and the coordinator run
(`coordinator.py`) -/

/-- `_create_synthetic_hourly_entries` (`coordinator.py` lines 33-45):
for each daily row, `pd.date_range(date, date + 1 day, freq='h')[:-1]`
gives the 24 hourly instants `date + k hours`, `k = 0..23`, and each
gets a copy of the daily row with only the timestamp replaced. -/
def create_synthetic_hourly_entries (daily_forecast_list : List WRow) : List WRow :=
  (daily_forecast_list.map
    (fun daily =>
      (List.range 24).map
        (fun k => WRow.mk (daily.datetime + 3600 * k) daily.cloud_coverage))).flatten

/-- One iteration of the cloud-cover alignment loop (`coordinator.py`
lines 139-145): if the cached row's timestamp is in the grid, assign
`entry.cloud_coverage or 0` at that timestamp of the series, else leave
the series unchanged (the row is only counted as unmatched).  The
series is modelled as an association list keyed by the grid timestamps,
in grid order. -/
def alignStep (grid : List ℕ) (ser : List (ℕ × PyVal)) (r : WRow) :
    List (ℕ × PyVal) :=
  if r.datetime ∈ grid then
    ser.map (fun p => if p.1 = r.datetime then (p.1, orZero r.cloud_coverage) else p)
  else ser

/-- The whole alignment loop: the initial series holds `0.0` at every
grid timestamp, and each cached row is processed by `alignStep`. -/
def alignCloud (grid : List ℕ) (cached : List WRow) : List (ℕ × PyVal) :=
  cached.foldl (alignStep grid) (grid.map (fun t => (t, PyVal.num 0)))

/-- `dc_power` computation (`coordinator.py` lines 178-182):
`poa_global * installed_kw * efficiency`, then, only when an inverter
cap is configured, `clip(lower=0, upper=inverter_kw * 1000)` where
`clip` is `min(max(x, lower), upper)` pointwise. -/
def computeDC (poa_global : List ℚ) (installed_kw efficiency : ℚ)
    (inverter_kw : Option ℚ) : List ℚ :=
  let dc := poa_global.map (fun x => x * installed_kw * efficiency)
  match inverter_kw with
  | Option.some ikw => dc.map (fun x => min (max x 0) (ikw * 1000))
  | Option.none => dc

/-- Clear-sky (or adjusted) irradiance series, aligned with the grid. -/
structure ClearskyData where
  ghi : List ℚ
  dni : List ℚ
  dhi : List ℚ
deriving DecidableEq, Repr

/-- The bitmask position of `WeatherEntityFeature.FORECAST_DAILY`. -/
def FORECAST_DAILY : ℕ := 1

/-- The bitmask position of `WeatherEntityFeature.FORECAST_HOURLY`. -/
def FORECAST_HOURLY : ℕ := 2

/-- The state object of the configured weather entity, as far as the
coordinator reads it: its `supported_features` attribute. -/
structure EntityState where
  supported_features : ℕ
deriving DecidableEq, Repr

/-- The forecast resolution requested from the weather service. -/
inductive ForecastType where
  | hourly : ForecastType
  | daily : ForecastType
deriving DecidableEq, Repr

/-- The environment a single `_async_update_data` run executes in: the
configuration, the host state machine, the external weather service,
and the external pvlib collaborators (clear-sky provider, adjustment,
plane-of-array).  Fallible external calls return `Except`;
`get_forecasts` may also succeed with no payload for the entity
(`Option.none`), which the coordinator treats as nothing to upsert. -/
structure RunEnv where
  weather_entity : Option String
  states : String → Option EntityState
  get_forecasts : String → ForecastType → Except String (Option (List WRow))
  clearsky : ClearskyData
  adjust : ClearskyData → List (ℕ × PyVal) → Except String ClearskyData
  poa_global : ClearskyData → List ℚ
  installed_kw : ℚ
  efficiency : ℚ
  inverter_kw : Option ℚ

/-- The weather section of `_async_update_data` (`coordinator.py` lines
98-165, the body of the `try`): returns the clearsky series to use
downstream together with the cache state left behind.  Any raised error
is the `Except.error` case; the second component records the cache
mutations that had already happened before the raise. -/
def weatherBranch (env : RunEnv) (cache : WeatherDF) (now : ℕ) :
    Except String ClearskyData × WeatherDF :=
  match env.weather_entity with
  | Option.none => (Except.ok env.clearsky, cache)
  | Option.some ent =>
    match env.states ent with
    | Option.none =>
        (Except.error "Weather entity state not available", cache)
    | Option.some st =>
      let ftypeE : Except String ForecastType :=
        if st.supported_features &&& FORECAST_HOURLY ≠ 0 then
          Except.ok ForecastType.hourly
        else if st.supported_features &&& FORECAST_DAILY ≠ 0 then
          Except.ok ForecastType.daily
        else Except.error "No supported forecast feature available."
      match ftypeE with
      | Except.error e => (Except.error e, cache)
      | Except.ok ftype =>
        match env.get_forecasts ent ftype with
        | Except.error e => (Except.error e, cache)
        | Except.ok resp =>
          let upsertStep : Except String WeatherDF :=
            match resp with
            | Option.none => Except.ok cache
            | Option.some entries =>
              let fl := entries.map
                (fun e => WRow.mk (floorHourTime e.datetime) e.cloud_coverage)
              let fl := if ftype = ForecastType.daily then
                  create_synthetic_hourly_entries fl
                else fl
              WeatherDataCache.upsertE cache (dataFrameOf fl) now
          match upsertStep with
          | Except.error e => (Except.error e, cache)
          | Except.ok cache2 =>
            match WeatherDataCache.readE cache2 now with
            | Except.error e => (Except.error e, cache2)
            | Except.ok cache3 =>
              let cloud_cover := alignCloud (timeGrid now) cache3.rows
              match env.adjust env.clearsky cloud_cover with
              | Except.error e => (Except.error e, cache3)
              | Except.ok adjusted => (Except.ok adjusted, cache3)

/-- The run's published result (`coordinator.py` lines 184-191). -/
structure RunResult where
  wh_period : List (ℕ × ℚ)
  timestamps : List ℕ
  forecast : List ℚ
deriving DecidableEq, Repr

/-- `_async_update_data` (`coordinator.py` lines 76-191): build the time
grid, take the clear-sky baseline, run the weather section inside
`try/except` (an error leaves `clearsky` at the baseline and the run
continues), then compute plane-of-array irradiance and DC power and
publish the result. -/
def runUpdate (env : RunEnv) (cache : WeatherDF) (now : ℕ) :
    RunResult × WeatherDF :=
  let times := timeGrid now
  let wb := weatherBranch env cache now
  let clearsky := match wb.1 with
    | Except.ok cs => cs
    | Except.error _ => env.clearsky
  let dc := computeDC (env.poa_global clearsky) env.installed_kw
    env.efficiency env.inverter_kw
  (RunResult.mk (times.zip dc) times dc, wb.2)

/-- A concrete baseline clearsky series used by concrete instantiations. -/
def sampleClearsky : ClearskyData :=
  ClearskyData.mk [100, 200] [300, 400] [50, 60]

/-- A concrete run environment whose configured weather entity has no
state object in the state machine, so the weather section raises. -/
def sampleEnvNoState : RunEnv where
  weather_entity := Option.some "weather.home"
  states := fun _ => Option.none
  get_forecasts := fun _ _ => Except.error "service unavailable"
  clearsky := sampleClearsky
  adjust := fun cs _ => Except.ok cs
  poa_global := fun cs => cs.ghi
  installed_kw := 5
  efficiency := 96 / 100
  inverter_kw := Option.none

/-! ## Theorems -/

/-- C1 (counterexample): at a "now" of 01:00 UTC on day 0 (3600 s) the
generated grid has `169 + 1 = 170` points, because the grid's end is
the current hour plus 7 days rather than start-of-day plus 7 days; the
claimed count of exactly 169 points fails. -/
theorem timeGrid_at_0100_not_169 : (timeGrid 3600).length ≠ 169 := by
  simp only [timeGrid, List.length_map, List.length_range, startOfUTCDay,
    floorHourTime]
  omega

/-- C1 (amended): for every fixed "now", the generated grid consists of
exactly `169 + h` hourly timestamps where `h` is the hour-of-day of
"now"; it starts at the start of the current day, its `i`-th element is
`start + i` hours (so spacing is uniformly one hour, ending at the
current hour plus 7 days), and it is strictly increasing (no gaps, no
duplicates). -/
theorem timeGrid_spec (now : ℕ) :
    (timeGrid now).length = 169 + now % 86400 / 3600 ∧
    (∀ i, i < (timeGrid now).length →
      (timeGrid now)[i]? = Option.some (startOfUTCDay now + 3600 * i)) ∧
    (timeGrid now).Pairwise (· < ·) := by
  refine ⟨?_, ?_, ?_⟩
  · simp only [timeGrid, List.length_map, List.length_range, startOfUTCDay,
      floorHourTime]
    omega
  · intro i hi
    simp only [timeGrid, List.length_map, List.length_range] at hi
    simp [timeGrid, List.getElem?_map, List.getElem?_range, hi]
  · refine List.Pairwise.map _ (fun a b h => ?_) (List.pairwise_lt_range _)
    omega

/-- C1 witness: at "now" = 0 the amended characterisation instantiates
to a 169-point grid starting at 0. -/
theorem timeGrid_spec_witness :
    (timeGrid 0).length = 169 + 0 % 86400 / 3600 ∧
    (timeGrid 0)[0]? = Option.some (startOfUTCDay 0 + 3600 * 0) :=
  ⟨(timeGrid_spec 0).1, (timeGrid_spec 0).2.1 0
    (by have := (timeGrid_spec 0).1; omega)⟩

/-! ### Cache lemmas -/

theorem any_datetime_eq (rows : List WRow) (t : ℕ) :
    rows.any (fun x => x.datetime == t) = true ↔ t ∈ rows.map WRow.datetime := by
  simp [List.any_eq_true]

theorem dedupeLast_cons (r : WRow) (rows : List WRow) :
    dedupeLast (r :: rows) =
      if (dedupeLast rows).any (fun x => x.datetime == r.datetime) then
        dedupeLast rows
      else r :: dedupeLast rows := rfl

theorem mem_map_datetime_dedupeLast (rows : List WRow) :
    ∀ t, t ∈ (dedupeLast rows).map WRow.datetime ↔ t ∈ rows.map WRow.datetime := by
  induction rows with
  | nil => intro t; exact Iff.rfl
  | cons r rs ih =>
    intro t
    rw [dedupeLast_cons]
    by_cases h : (dedupeLast rs).any (fun x => x.datetime == r.datetime) = true
    · rw [if_pos h]
      have hr : r.datetime ∈ rs.map WRow.datetime :=
        (ih r.datetime).1 ((any_datetime_eq _ _).1 h)
      simp only [List.map_cons, List.mem_cons, ih t]
      exact ⟨Or.inr, fun h2 => h2.elim (fun he => he ▸ hr) id⟩
    · rw [if_neg h]
      simp [ih t]

theorem nodup_map_datetime_dedupeLast (rows : List WRow) :
    ((dedupeLast rows).map WRow.datetime).Nodup := by
  induction rows with
  | nil => exact List.nodup_nil
  | cons r rs ih =>
    rw [dedupeLast_cons]
    by_cases h : (dedupeLast rs).any (fun x => x.datetime == r.datetime) = true
    · rw [if_pos h]; exact ih
    · rw [if_neg h]
      simp only [List.map_cons, List.nodup_cons]
      exact ⟨fun hmem => h ((any_datetime_eq _ _).2 hmem), ih⟩

theorem dedupeLast_eq_self (rows : List WRow)
    (h : (rows.map WRow.datetime).Nodup) : dedupeLast rows = rows := by
  induction rows with
  | nil => rfl
  | cons r rs ih =>
    simp only [List.map_cons, List.nodup_cons] at h
    have hno : ¬ ((dedupeLast rs).any (fun x => x.datetime == r.datetime) = true) := by
      intro hany
      exact h.1 ((mem_map_datetime_dedupeLast _ _).1 ((any_datetime_eq _ _).1 hany))
    rw [dedupeLast_cons, if_neg hno, ih h.2]

theorem lastRowWith_eq_none_iff (rows : List WRow) (t : ℕ) :
    lastRowWith rows t = Option.none ↔ t ∉ rows.map WRow.datetime := by
  induction rows with
  | nil => simp [lastRowWith]
  | cons r rs ih =>
    cases h2 : lastRowWith rs t with
    | some x =>
      have hmem : t ∈ rs.map WRow.datetime := by
        by_contra hc
        rw [← ih] at hc
        rw [h2] at hc
        exact Option.noConfusion hc
      simp [lastRowWith, h2, hmem]
    | none =>
      have hnot : t ∉ rs.map WRow.datetime := ih.1 h2
      by_cases he : r.datetime = t
      · simp [lastRowWith, h2, he]
      · simp [lastRowWith, h2, he, hnot, Ne.symm he]

theorem lastRowWith_of_mem_dedupeLast (rows : List WRow) (r : WRow)
    (h : r ∈ dedupeLast rows) : lastRowWith rows r.datetime = Option.some r := by
  induction rows with
  | nil => exact absurd h (List.not_mem_nil r)
  | cons q rs ih =>
    rw [dedupeLast_cons] at h
    by_cases hq : (dedupeLast rs).any (fun x => x.datetime == q.datetime) = true
    · rw [if_pos hq] at h
      have hsome := ih h
      simp [lastRowWith, hsome]
    · rw [if_neg hq] at h
      rcases List.mem_cons.1 h with rfl | h2
      · have hq2 : r.datetime ∉ rs.map WRow.datetime := fun hmem =>
          hq ((any_datetime_eq _ _).2 ((mem_map_datetime_dedupeLast rs _).2 hmem))
        have hnone : lastRowWith rs r.datetime = Option.none :=
          (lastRowWith_eq_none_iff _ _).2 hq2
        simp [lastRowWith, hnone]
      · have hsome := ih h2
        simp [lastRowWith, hsome]

theorem lastRowWith_append (l1 l2 : List WRow) (t : ℕ)
    (h : t ∈ l2.map WRow.datetime) :
    lastRowWith (l1 ++ l2) t = lastRowWith l2 t := by
  induction l1 with
  | nil => rfl
  | cons q qs ih =>
    have hsome : lastRowWith l2 t ≠ Option.none := by
      rw [Ne, lastRowWith_eq_none_iff]
      exact fun hc => hc h
    cases h2 : lastRowWith l2 t with
    | none => exact absurd h2 hsome
    | some x =>
      rw [h2] at ih
      simp [lastRowWith, List.cons_append, ih, h2]

theorem upsertE_ok_shape {s new : WeatherDF} {now : ℕ} {res : WeatherDF}
    (h : WeatherDataCache.upsertE s new now = Except.ok res) :
    res = WeatherDF.mk (cleanRows (dedupeLast (s.rows ++ new.rows)) now) true := by
  unfold WeatherDataCache.upsertE at h
  by_cases hc : (s.hasDatetimeCol || new.hasDatetimeCol) = true
  · rw [if_pos hc] at h
    exact (Except.ok.inj h).symm
  · rw [if_neg hc] at h
    exact absurd h (by simp)

theorem readE_ok_shape {s : WeatherDF} {now : ℕ} {res : WeatherDF}
    (h : WeatherDataCache.readE s now = Except.ok res) :
    res = WeatherDF.mk (cleanRows s.rows now) true := by
  unfold WeatherDataCache.readE at h
  by_cases hc : s.hasDatetimeCol = true
  · rw [if_pos hc] at h
    exact (Except.ok.inj h).symm
  · rw [if_neg hc] at h
    exact absurd h (by simp)

theorem nodup_map_datetime_cleanRows (rows : List WRow) (now : ℕ)
    (h : (rows.map WRow.datetime).Nodup) :
    ((cleanRows rows now).map WRow.datetime).Nodup :=
  List.Nodup.sublist (List.Sublist.map _ (List.filter_sublist rows)) h

theorem step_preserves_nodup (s : WeatherDF) (op : CacheOp)
    (hs : (s.rows.map WRow.datetime).Nodup) :
    (((CacheOp.step s op).rows).map WRow.datetime).Nodup := by
  cases op with
  | upsert new now =>
    cases h : WeatherDataCache.upsertE s new now with
    | ok s2 =>
      have := upsertE_ok_shape h
      subst this
      simp only [CacheOp.step, h]
      exact nodup_map_datetime_cleanRows _ _ (nodup_map_datetime_dedupeLast _)
    | error e =>
      simpa only [CacheOp.step, h] using hs
  | read now =>
    cases h : WeatherDataCache.readE s now with
    | ok s2 =>
      have := readE_ok_shape h
      subst this
      simp only [CacheOp.step, h]
      exact nodup_map_datetime_cleanRows _ _ hs
    | error e =>
      simpa only [CacheOp.step, h] using hs

theorem runCacheOps_nodup (ops : List CacheOp) :
    (((runCacheOps ops).rows).map WRow.datetime).Nodup := by
  suffices h : ∀ (s : WeatherDF), (s.rows.map WRow.datetime).Nodup →
      (((ops.foldl CacheOp.step s).rows).map WRow.datetime).Nodup by
    exact h WeatherDataCache.init List.nodup_nil
  induction ops with
  | nil => intro s hs; exact hs
  | cons op rest ih =>
    intro s hs
    exact ih _ (step_preserves_nodup s op hs)

/-- C3: after any sequence of upsert and read calls starting from a
fresh cache, (1) the store holds at most one observation per timestamp;
(2) on a further successful upsert, any retained row whose timestamp
occurs in the newly upserted data is exactly the last newly upserted
row with that timestamp (the new value wins over any previously cached
one); (3) any successful read returns no observation whose timestamp is
strictly earlier than the start of the current UTC day, with no
separate clean call needed. -/
theorem cache_invariants (ops : List CacheOp) :
    (((runCacheOps ops).rows).map WRow.datetime).Nodup ∧
    (∀ (new : WeatherDF) (now : ℕ) (res : WeatherDF) (r : WRow),
      WeatherDataCache.upsertE (runCacheOps ops) new now = Except.ok res →
      r ∈ res.rows → r.datetime ∈ new.rows.map WRow.datetime →
      lastRowWith new.rows r.datetime = Option.some r) ∧
    (∀ (now : ℕ) (res : WeatherDF),
      WeatherDataCache.readE (runCacheOps ops) now = Except.ok res →
      ∀ r, r ∈ res.rows → startOfUTCDay now ≤ r.datetime) := by
  refine ⟨runCacheOps_nodup ops, ?_, ?_⟩
  · intro new now res r hok hmem hdt
    have hres := upsertE_ok_shape hok
    subst hres
    have h1 : r ∈ dedupeLast ((runCacheOps ops).rows ++ new.rows) :=
      (List.mem_filter.1 hmem).1
    have h2 := lastRowWith_of_mem_dedupeLast _ _ h1
    rwa [lastRowWith_append _ _ _ hdt] at h2
  · intro now res hok r hmem
    have hres := readE_ok_shape hok
    subst hres
    have := (List.mem_filter.1 hmem).2
    exact of_decide_eq_true this

/-- C3 witness: on the cache state reached by one upsert of a row at
timestamp 86400, a further upsert whose new data also carries timestamp
86400 retains exactly the new row, and a read at time 0 returns only
rows at or after the start of that day. -/
theorem cache_invariants_witness :
    lastRowWith [WRow.mk 86400 (PyVal.num 50)] 86400 =
      Option.some (WRow.mk 86400 (PyVal.num 50)) ∧
    startOfUTCDay 0 ≤ 86400 :=
  ⟨(cache_invariants [CacheOp.upsert (dataFrameOf [WRow.mk 86400 (PyVal.num 40)]) 0]).2.1
      (dataFrameOf [WRow.mk 86400 (PyVal.num 50)]) 0
      (WeatherDF.mk [WRow.mk 86400 (PyVal.num 50)] true)
      (WRow.mk 86400 (PyVal.num 50)) (by rfl) (by simp) (by simp [dataFrameOf]),
    (cache_invariants [CacheOp.upsert (dataFrameOf [WRow.mk 86400 (PyVal.num 40)]) 0]).2.2
      0 (WeatherDF.mk [WRow.mk 86400 (PyVal.num 40)] true) (by rfl)
      (WRow.mk 86400 (PyVal.num 40)) (by simp)⟩

/-- C4 (counterexample): calling upsert with an empty sequence of
observations on the freshly created empty cache does not succeed: the
combined frame has no `datetime` column, so
`drop_duplicates(subset='datetime')` raises `KeyError`. -/
theorem upsert_empty_fresh_raises :
    WeatherDataCache.upsertE WeatherDataCache.init (dataFrameOf []) 0 =
      Except.error "KeyError: datetime" := rfl

/-- C4 (amended): for every prior cache state that has the `datetime`
column (in particular every state left by a successful upsert, whose
rows are then duplicate-free), upserting an empty sequence of
observations succeeds and merges no rows: the result is the prior
contents with only the retention rule applied.  On the freshly created
empty cache the same call instead raises `KeyError`. -/
theorem upsert_empty_noop (s : WeatherDF) (now : ℕ)
    (hcol : s.hasDatetimeCol = true)
    (hnd : (s.rows.map WRow.datetime).Nodup) :
    WeatherDataCache.upsertE s (dataFrameOf []) now =
      Except.ok (WeatherDF.mk (cleanRows s.rows now) true) := by
  unfold WeatherDataCache.upsertE
  simp only [dataFrameOf, List.isEmpty_nil, Bool.not_true, hcol, Bool.true_or,
    if_pos, List.append_nil, dedupeLast_eq_self s.rows hnd]

/-- C4 witness: a concrete one-row cache state with the `datetime`
column accepts the empty upsert as a retention-only no-op. -/
theorem upsert_empty_noop_witness :
    WeatherDataCache.upsertE (WeatherDF.mk [WRow.mk 7200 (PyVal.num 1)] true)
        (dataFrameOf []) 0 =
      Except.ok (WeatherDF.mk (cleanRows [WRow.mk 7200 (PyVal.num 1)] 0) true) :=
  upsert_empty_noop (WeatherDF.mk [WRow.mk 7200 (PyVal.num 1)] true) 0 rfl (by simp)

/-- C8 (counterexample): a single daily observation whose timestamp is
noon of day 0 (43200 s) yields 24 rows whose timestamps are NOT the
hour boundaries of that calendar day (0, 3600, ..., 82800); the output
even contains the following midnight 86400 (reached at noon + 12 h). -/
theorem synth_noon_cex :
    86400 ∈ (create_synthetic_hourly_entries
        [WRow.mk 43200 (PyVal.num 40)]).map WRow.datetime ∧
    (create_synthetic_hourly_entries [WRow.mk 43200 (PyVal.num 40)]).map
        WRow.datetime ≠ (List.range 24).map (fun k => 3600 * k) := by
  constructor
  · simp only [create_synthetic_hourly_entries, List.map_cons, List.map_nil,
      List.flatten, List.append_nil, List.map_map, List.mem_map,
      List.mem_range]
    exact ⟨12, by omega, by simp⟩
  · intro h
    have h0 : 86400 ∈ (List.range 24).map (fun k => 3600 * k) := by
      rw [← h]
      simp only [create_synthetic_hourly_entries, List.map_cons, List.map_nil,
        List.flatten, List.append_nil, List.map_map, List.mem_map,
        List.mem_range]
      exact ⟨12, by omega, by simp⟩
    simp only [List.mem_map, List.mem_range] at h0
    obtain ⟨k, hk, he⟩ := h0
    omega

/-- C8 (amended): synthesis outputs exactly 24 hourly rows per input
day; a row is in the output iff it is a copy of some input row with its
timestamp replaced by that row's timestamp plus `k` hours, `0 ≤ k < 24`
(a half-open 24-hour window starting at the input row's own timestamp,
with no row at that window's end); when an input row's timestamp is a
midnight, these are exactly the hour boundaries of its calendar day. -/
theorem synth_spec (daily : List WRow) :
    (create_synthetic_hourly_entries daily).length = 24 * daily.length ∧
    (∀ r, r ∈ create_synthetic_hourly_entries daily ↔
      ∃ d, d ∈ daily ∧ ∃ k, k < 24 ∧
        r = WRow.mk (d.datetime + 3600 * k) d.cloud_coverage) ∧
    (∀ d, d ∈ daily → d.datetime % 86400 = 0 → ∀ k, k < 24 →
      WRow.mk (d.datetime + 3600 * k) d.cloud_coverage ∈
        create_synthetic_hourly_entries daily ∧
      startOfUTCDay (d.datetime + 3600 * k) = d.datetime) := by
  refine ⟨?_, ?_, ?_⟩
  · induction daily with
    | nil => rfl
    | cons d rest ih =>
      simp only [create_synthetic_hourly_entries, List.map_cons,
        List.flatten_cons, List.length_append, List.length_map,
        List.length_range, List.length_cons] at ih ⊢
      omega
  · intro r
    simp only [create_synthetic_hourly_entries, List.mem_flatten,
      List.mem_map, List.mem_range]
    constructor
    · rintro ⟨block, ⟨d, hd, rfl⟩, hr⟩
      obtain ⟨k, hk, rfl⟩ := List.mem_map.1 hr
      exact ⟨d, hd, k, List.mem_range.1 hk, rfl⟩
    · rintro ⟨d, hd, k, hk, rfl⟩
      exact ⟨(List.range 24).map
          (fun k => WRow.mk (d.datetime + 3600 * k) d.cloud_coverage),
        ⟨d, hd, rfl⟩, List.mem_map.2 ⟨k, List.mem_range.2 hk, rfl⟩⟩
  · intro d hd hmid k hk
    constructor
    · simp only [create_synthetic_hourly_entries, List.mem_flatten,
        List.mem_map, List.mem_range]
      exact ⟨(List.range 24).map
          (fun k => WRow.mk (d.datetime + 3600 * k) d.cloud_coverage),
        ⟨d, hd, rfl⟩, List.mem_map.2 ⟨k, List.mem_range.2 hk, rfl⟩⟩
    · simp only [startOfUTCDay]
      omega

/-- C8 witness: one midnight daily row yields 24 rows; the row for hour
0 is in the output and sits in the input day. -/
theorem synth_spec_witness :
    (create_synthetic_hourly_entries [WRow.mk 86400 (PyVal.num 40)]).length =
      24 * [WRow.mk 86400 (PyVal.num 40)].length ∧
    (WRow.mk (86400 + 3600 * 5) (PyVal.num 40) ∈
      create_synthetic_hourly_entries [WRow.mk 86400 (PyVal.num 40)] ∧
      startOfUTCDay (86400 + 3600 * 5) = 86400) :=
  ⟨(synth_spec [WRow.mk 86400 (PyVal.num 40)]).1,
    (synth_spec [WRow.mk 86400 (PyVal.num 40)]).2.2
      (WRow.mk 86400 (PyVal.num 40)) (by simp) (by norm_num) 5 (by norm_num)⟩

/-- C9: at every timestamp DC power is POA global irradiance times
installed capacity times efficiency: with no inverter cap configured
the published series is exactly that product series (left unclipped,
with no lower clamp and no upper bound applied); with a nonnegative cap
`ikw` configured, every published value lies in `[0, ikw * 1000]`
watts. -/
theorem computeDC_spec (poa : List ℚ) (kw eff ikw : ℚ) :
    computeDC poa kw eff Option.none = poa.map (fun x => x * kw * eff) ∧
    (0 ≤ ikw → ∀ x, x ∈ computeDC poa kw eff (Option.some ikw) →
      0 ≤ x ∧ x ≤ ikw * 1000) ∧
    (computeDC poa kw eff (Option.some ikw) =
      poa.map (fun x => min (max (x * kw * eff) 0) (ikw * 1000))) := by
  refine ⟨rfl, ?_, by simp [computeDC]⟩
  intro hikw x hx
  simp only [computeDC, List.map_map, List.mem_map] at hx
  obtain ⟨v, hv, rfl⟩ := hx
  constructor
  · exact le_min (le_max_right _ 0) (by positivity)
  · exact min_le_right _ _

/-- C9 witness: with POA `[2]`, capacity 3, efficiency 1 and cap 1 kW,
the published value 6 lies within `[0, 1000]`. -/
theorem computeDC_spec_witness : 0 ≤ (6 : ℚ) ∧ (6 : ℚ) ≤ 1 * 1000 :=
  (computeDC_spec [2] 3 1 1).2.1 (by norm_num) 6 (by norm_num [computeDC])

/-! ### Cloud-cover alignment lemmas -/

theorem lookup_update_ne (ser : List (ℕ × PyVal)) (s t : ℕ) (v : PyVal)
    (h : s ≠ t) :
    (ser.map (fun p => if p.1 = s then (p.1, v) else p)).lookup t =
      ser.lookup t := by
  induction ser with
  | nil => rfl
  | cons q qs ih =>
    obtain ⟨k, b⟩ := q
    rw [List.map_cons]
    have hhead : (if (k, b).1 = s then ((k, b).1, v) else (k, b)) =
        if k = s then (k, v) else (k, b) := rfl
    rw [hhead]
    by_cases hq : k = s
    · rw [if_pos hq, List.lookup_cons, List.lookup_cons]
      have hkt : (t == k) = false := by
        rw [beq_eq_false_iff_ne]
        intro he
        rw [hq] at he
        exact h he.symm
      rw [hkt]
      exact ih
    · rw [if_neg hq, List.lookup_cons, List.lookup_cons]
      cases hkt : (t == k) with
      | true => rfl
      | false => exact ih

theorem lookup_update_eq (ser : List (ℕ × PyVal)) (t : ℕ) (v : PyVal)
    (h : t ∈ ser.map Prod.fst) :
    (ser.map (fun p => if p.1 = t then (p.1, v) else p)).lookup t =
      Option.some v := by
  induction ser with
  | nil => exact absurd h (List.not_mem_nil t)
  | cons q qs ih =>
    obtain ⟨k, b⟩ := q
    rw [List.map_cons]
    have hhead : (if (k, b).1 = t then ((k, b).1, v) else (k, b)) =
        if k = t then (k, v) else (k, b) := rfl
    rw [hhead]
    by_cases hk : k = t
    · rw [if_pos hk, List.lookup_cons]
      have hbt : (t == k) = true := by rw [beq_iff_eq]; exact hk.symm
      rw [hbt]
    · rw [if_neg hk, List.lookup_cons]
      have hkt : (t == k) = false := by
        rw [beq_eq_false_iff_ne]
        exact fun he => hk he.symm
      rw [hkt]
      apply ih
      have h2 : t = k ∨ ∃ x, (t, x) ∈ qs := by simpa using h
      rcases h2 with he | ⟨x, hx⟩
      · exact absurd he.symm hk
      · exact List.mem_map.2 ⟨(t, x), hx, rfl⟩

theorem alignStep_keys (grid : List ℕ) (ser : List (ℕ × PyVal)) (r : WRow) :
    (alignStep grid ser r).map Prod.fst = ser.map Prod.fst := by
  unfold alignStep
  by_cases h : r.datetime ∈ grid
  · rw [if_pos h, List.map_map]
    apply List.map_congr_left
    intro p _
    by_cases hp : p.1 = r.datetime <;> simp [hp]
  · rw [if_neg h]

theorem foldl_alignStep_keys (grid : List ℕ) (cached : List WRow)
    (ser : List (ℕ × PyVal)) :
    (cached.foldl (alignStep grid) ser).map Prod.fst = ser.map Prod.fst := by
  induction cached generalizing ser with
  | nil => rfl
  | cons r rest ih => rw [List.foldl_cons, ih, alignStep_keys]

theorem alignStep_lookup_self (grid : List ℕ) (ser : List (ℕ × PyVal))
    (r : WRow) (hg : r.datetime ∈ grid)
    (hk : r.datetime ∈ ser.map Prod.fst) :
    (alignStep grid ser r).lookup r.datetime =
      Option.some (orZero r.cloud_coverage) := by
  unfold alignStep
  rw [if_pos hg]
  exact lookup_update_eq ser r.datetime _ hk

theorem foldl_alignStep_lookup_ne (grid : List ℕ) (t : ℕ) (cached : List WRow)
    (h : ∀ r ∈ cached, r.datetime ≠ t) (ser : List (ℕ × PyVal)) :
    (cached.foldl (alignStep grid) ser).lookup t = ser.lookup t := by
  induction cached generalizing ser with
  | nil => rfl
  | cons r rest ih =>
    rw [List.foldl_cons, ih (fun x hx => h x (List.mem_cons_of_mem _ hx))]
    unfold alignStep
    by_cases hg : r.datetime ∈ grid
    · rw [if_pos hg]
      exact lookup_update_ne _ _ _ _ (h r (List.mem_cons_self _ _))
    · rw [if_neg hg]

/-- C10 (counterexample): a cached observation whose `cloud_coverage`
value is absent — which pandas stores as the float `nan` once the frame
is built — is truthy in Python, so `entry.cloud_coverage or 0` keeps
`nan`: the aligned series entry is `nan`, not the claimed 0. -/
theorem align_nan_cex :
    alignCloud [0] [WRow.mk 0 PyVal.nan] = [(0, PyVal.nan)] ∧
    PyVal.nan ≠ PyVal.num 0 := ⟨rfl, by decide⟩

/-- C10 (amended): for every matched cached observation the
CloudCoverSeries entry equals `cloud_coverage` when that value is
truthy and the number 0 otherwise — so `None`, a stored 0, and any
other falsy value contribute exactly 0, while the truthy `nan` of an
absent value is carried through as `nan` — and every grid timestamp
with no matching observation keeps the default 0. -/
theorem alignCloud_spec (grid : List ℕ) (cached : List WRow)
    (hnd : (cached.map WRow.datetime).Nodup) :
    (∀ r, r ∈ cached → r.datetime ∈ grid →
      (alignCloud grid cached).lookup r.datetime =
        Option.some (orZero r.cloud_coverage)) ∧
    (∀ t, t ∈ grid → t ∉ cached.map WRow.datetime →
      (alignCloud grid cached).lookup t = Option.some (PyVal.num 0)) := by
  constructor
  · intro r hr hg
    obtain ⟨l1, l2, rfl⟩ := List.append_of_mem hr
    unfold alignCloud
    rw [List.foldl_append, List.foldl_cons]
    have hne : ∀ x ∈ l2, x.datetime ≠ r.datetime := by
      simp only [List.map_append, List.map_cons] at hnd
      have hr2 := List.Nodup.of_append_right hnd
      have h1 := (List.nodup_cons.1 hr2).1
      intro x hx he
      exact h1 (he ▸ List.mem_map_of_mem _ hx)
    rw [foldl_alignStep_lookup_ne grid r.datetime l2 hne _]
    apply alignStep_lookup_self _ _ _ hg
    rw [foldl_alignStep_keys, List.map_map]
    simpa using hg
  · intro t htg htc
    unfold alignCloud
    rw [foldl_alignStep_lookup_ne grid t cached
      (fun r hr he => htc (he ▸ List.mem_map_of_mem _ hr)) _]
    exact List.lookup_graph _ htg

/-- C10 witness: with grid `[0, 3600]` and one cached row at 3600 with
coverage 40, the series reads 40 at 3600 and the default 0 at 0. -/
theorem alignCloud_spec_witness :
    (alignCloud [0, 3600] [WRow.mk 3600 (PyVal.num 40)]).lookup 3600 =
      Option.some (orZero (PyVal.num 40)) ∧
    (alignCloud [0, 3600] [WRow.mk 3600 (PyVal.num 40)]).lookup 0 =
      Option.some (PyVal.num 0) :=
  ⟨(alignCloud_spec [0, 3600] [WRow.mk 3600 (PyVal.num 40)] (by simp)).1
      (WRow.mk 3600 (PyVal.num 40)) (by simp) (by simp),
    (alignCloud_spec [0, 3600] [WRow.mk 3600 (PyVal.num 40)] (by simp)).2
      0 (by simp) (by simp)⟩

/-- C2: whenever the weather section of a run raises — missing entity
state, unsupported resolution, fetch failure, malformed payload, a
cache `KeyError`, or a failing adjustment call — the error is caught
and the run's published result is exactly the result of the same run
with no weather source at all: plane-of-array irradiance and DC power
are computed from the unadjusted clear-sky baseline, and the run never
aborts. -/
theorem weather_failure_isolated (env : RunEnv) (cache : WeatherDF) (now : ℕ)
    (e : String) (h : (weatherBranch env cache now).1 = Except.error e) :
    (runUpdate env cache now).1 =
      (runUpdate { env with weather_entity := Option.none } cache now).1 ∧
    (runUpdate env cache now).1.forecast =
      computeDC (env.poa_global env.clearsky) env.installed_kw env.efficiency
        env.inverter_kw := by
  constructor
  · simp only [runUpdate]
    rw [h]
    rfl
  · simp only [runUpdate]
    rw [h]

/-- C2 witness: a concrete run whose configured weather entity has no
state raises inside the weather section, and the published result agrees
with the weatherless baseline run. -/
theorem weather_failure_isolated_witness :
    (runUpdate sampleEnvNoState WeatherDataCache.init 0).1 =
      (runUpdate { sampleEnvNoState with weather_entity := Option.none }
        WeatherDataCache.init 0).1 ∧
    (runUpdate sampleEnvNoState WeatherDataCache.init 0).1.forecast =
      computeDC (sampleEnvNoState.poa_global sampleEnvNoState.clearsky)
        sampleEnvNoState.installed_kw sampleEnvNoState.efficiency
        sampleEnvNoState.inverter_kw :=
  weather_failure_isolated sampleEnvNoState WeatherDataCache.init 0
    "Weather entity state not available" (by rfl)

/-! ### Irradiance model theorems -/

/-- C7: the clear-sky scaling adjustment computes adjusted GHI as
`(floor + (1 - floor) * (1 - cloud_fraction)) * ghi_clear` with default
floor 0.35; hence cloud cover 0 reproduces the clear-sky GHI exactly
and cloud cover 100 yields exactly `0.35 * ghi_clear`, for every
timestamp (every cloud-cover/clear-sky value pair). -/
theorem cloud_cover_to_ghi_linear_spec (cloud_cover ghi_clear : ℝ) :
    cloud_cover_to_ghi_linear cloud_cover ghi_clear =
      (0.35 + (1 - 0.35) * (1 - cloud_cover / 100)) * ghi_clear ∧
    cloud_cover_to_ghi_linear 0 ghi_clear = ghi_clear ∧
    cloud_cover_to_ghi_linear 100 ghi_clear = 0.35 * ghi_clear := by
  refine ⟨?_, ?_, ?_⟩ <;>
    (unfold cloud_cover_to_ghi_linear; ring)

theorem disc_b_nonneg (kt : ℝ) (h0 : 0 ≤ kt) (h1 : kt ≤ 1) : 0 ≤ disc_b kt := by
  unfold disc_b
  by_cases h : kt ≤ 0.6
  · rw [if_pos h]; linarith
  · rw [if_neg h]
    have h6 : (0.6 : ℝ) ≤ kt := le_of_not_le h
    nlinarith [mul_nonneg (mul_nonneg (by linarith : (0:ℝ) ≤ kt - 0.6)
        (by linarith : (0:ℝ) ≤ kt - 0.6)) (by linarith : (0:ℝ) ≤ kt - 0.6),
      sq_nonneg (kt - 0.6194), (by linarith : (0:ℝ) ≤ kt - 0.6)]

theorem disc_a_lower (kt : ℝ) (h0 : 0 ≤ kt) (h1 : kt ≤ 1) : -0.1 ≤ disc_a kt := by
  unfold disc_a
  by_cases h : kt ≤ 0.6
  · rw [if_pos h]
    nlinarith [mul_nonneg (mul_nonneg h0 h0) (by linarith : (0:ℝ) ≤ 0.6 - kt),
      sq_nonneg (0.6 - kt), (by linarith : (0:ℝ) ≤ 0.6 - kt)]
  · rw [if_neg h]
    have h6 : (0.6 : ℝ) ≤ kt := le_of_not_le h
    nlinarith [mul_nonneg (by linarith : (0:ℝ) ≤ kt - 0.6) (sq_nonneg (kt - 0.889)),
      (by linarith : (0:ℝ) ≤ kt - 0.6)]

theorem disc_Knc_le (am : ℝ) (h1 : 1 ≤ am) (h2 : am ≤ 12) : disc_Knc am ≤ 0.9 := by
  unfold disc_Knc
  nlinarith [mul_nonneg (by linarith : (0:ℝ) ≤ am - 1) (by linarith : (0:ℝ) ≤ 12 - am),
    mul_nonneg (mul_nonneg (by linarith : (0:ℝ) ≤ am - 1) (by linarith : (0:ℝ) ≤ am - 1))
      (by linarith : (0:ℝ) ≤ am - 1),
    mul_nonneg (mul_nonneg (mul_nonneg (by linarith : (0:ℝ) ≤ am - 1)
      (by linarith : (0:ℝ) ≤ am - 1)) (by linarith : (0:ℝ) ≤ am - 1))
      (by linarith : (0:ℝ) ≤ 12 - am)]

theorem disc_Kn_le_one (kt am : ℝ) (hk0 : 0 ≤ kt) (hk1 : kt ≤ 1)
    (ha1 : 1 ≤ am) (ha2 : am ≤ 12) : disc_Kn kt am ≤ 1 := by
  unfold disc_Kn
  have hb := disc_b_nonneg kt hk0 hk1
  have ha := disc_a_lower kt hk0 hk1
  have hknc := disc_Knc_le am ha1 ha2
  have hexp : 0 < Real.exp (disc_c kt * am) := Real.exp_pos _
  nlinarith [mul_nonneg hb hexp.le]

/-- C5: for every clearness index `kt` in `[0, 1]` and airmass in
`[1, 12]`, the DISC decomposition returns a DNI with
`0 ≤ DNI ≤ dni_extra` (for nonnegative extraterrestrial radiation);
moreover DNI is set to 0 wherever the zenith angle the filter derives
from the airmass exceeds 87 degrees, wherever `kt < 0`, or wherever the
computed raw DNI is negative. -/
theorem disc_dni_props (kt airmass dni_extra : ℝ) :
    (0 ≤ kt → kt ≤ 1 → 1 ≤ airmass → airmass ≤ 12 → 0 ≤ dni_extra →
      0 ≤ disc_dni kt airmass dni_extra ∧
      disc_dni kt airmass dni_extra ≤ dni_extra) ∧
    (87 < disc_zenith airmass 0.065 ∨ kt < 0 ∨
        disc_dni_raw kt airmass dni_extra 12 < 0 →
      disc_dni kt airmass dni_extra = 0) := by
  constructor
  · intro hk0 hk1 ha1 ha2 hE
    unfold disc_dni
    by_cases hbad : (87 : ℝ) < disc_zenith airmass 0.065 ∨ kt < 0 ∨
        disc_dni_raw kt airmass dni_extra 12 < 0
    · rw [if_pos hbad]
      exact ⟨le_refl 0, hE⟩
    · rw [if_neg hbad]
      push_neg at hbad
      obtain ⟨_, _, hdni⟩ := hbad
      refine ⟨hdni, ?_⟩
      unfold disc_dni_raw
      rw [min_eq_left ha2]
      calc disc_Kn kt airmass * dni_extra
          ≤ 1 * dni_extra :=
            mul_le_mul_of_nonneg_right (disc_Kn_le_one kt airmass hk0 hk1 ha1 ha2) hE
        _ = dni_extra := one_mul _
  · intro hbad
    unfold disc_dni
    rw [if_pos hbad]

/-- C5 witness: at `kt = 0`, airmass 1 and zero extraterrestrial
radiation the bounds force DNI to be exactly 0. -/
theorem disc_dni_props_witness :
    0 ≤ disc_dni 0 1 0 ∧ disc_dni 0 1 0 ≤ 0 :=
  (disc_dni_props 0 1 0).1 le_rfl (by norm_num) le_rfl (by norm_num) le_rfl

/-- C6 (counterexample): with the solar position fixed at apparent
zenith 95 degrees (sun below the horizon, so `cos` is negative) and
default pressure and extraterrestrial irradiance, raising cloud cover
from 0 to 100 strictly INCREASES the Campbell-Norman GHI, refuting the
claimed monotone non-increase at every timestamp. -/
theorem campbell_norman_ghi_not_monotone :
    campbell_norman_ghi 95 0 101325.0 1367.0 <
      campbell_norman_ghi 95 100 101325.0 1367.0 := by
  have hcos : Real.cos (radiansOf 95) = -Real.sin (Real.pi / 36) := by
    rw [show radiansOf 95 = Real.pi / 2 + Real.pi / 36 by unfold radiansOf; ring,
      Real.cos_add, Real.cos_pi_div_two, Real.sin_pi_div_two]
    ring
  have hsin_pos : 0 < Real.sin (Real.pi / 36) :=
    Real.sin_pos_of_pos_of_lt_pi (by positivity)
      (div_lt_self Real.pi_pos (by norm_num))
  have hsin_lt : Real.sin (Real.pi / 36) < 0.0875 := by
    have h1 : Real.sin (Real.pi / 36) < Real.pi / 36 := Real.sin_lt (by positivity)
    have h2 := Real.pi_lt_d2
    linarith
  have hinv : (0.857 : ℝ) ≤ ((1.07995 : ℝ) ^ (1.6364 : ℝ))⁻¹ := by
    have hr1 : (1.07995 : ℝ) ^ (1.6364 : ℝ) ≤ (1.07995 : ℝ) ^ (2 : ℝ) :=
      Real.rpow_le_rpow_of_exponent_le (by norm_num) (by norm_num)
    have hr2 : (1.07995 : ℝ) ^ (2 : ℝ) ≤ 1.1663 := by
      rw [show (2:ℝ) = ((2:ℕ):ℝ) by norm_num, Real.rpow_natCast]
      norm_num
    have hrpos : 0 < (1.07995 : ℝ) ^ (1.6364 : ℝ) :=
      Real.rpow_pos_of_pos (by norm_num) _
    have h3 : (1 : ℝ) / 1.1663 ≤ 1 / ((1.07995 : ℝ) ^ (1.6364 : ℝ)) :=
      one_div_le_one_div_of_le hrpos (by linarith)
    simp only [one_div] at h3
    have h4 : (0.857 : ℝ) ≤ (1.1663 : ℝ)⁻¹ := by norm_num
    linarith
  have hd : (0.3 : ℝ) < Real.cos (radiansOf 95) +
      0.50572 * (96.07995 - 95) ^ (-(1.6364 : ℝ)) := by
    rw [hcos, show (96.07995 : ℝ) - 95 = 1.07995 by norm_num,
      Real.rpow_neg (by norm_num : (0:ℝ) ≤ 1.07995)]
    linarith
  have ham_pos : 0 < get_relative_airmass 95 := by
    unfold get_relative_airmass
    exact one_div_pos.2 (lt_trans (by norm_num) hd)
  have habs_pos : 0 < get_absolute_airmass (get_relative_airmass 95) 101325.0 := by
    unfold get_absolute_airmass
    rw [div_self (by norm_num : (101325.0:ℝ) ≠ 0), mul_one]
    exact ham_pos
  have ht0 : cloud_cover_to_transmittance_linear 0 = 0.75 := by
    unfold cloud_cover_to_transmittance_linear; norm_num
  have ht100 : cloud_cover_to_transmittance_linear 100 = 0 := by
    unfold cloud_cover_to_transmittance_linear; norm_num
  have hT0 : 0 < (0.75 : ℝ) ^
      (get_absolute_airmass (get_relative_airmass 95) 101325.0) :=
    Real.rpow_pos_of_pos (by norm_num) _
  have hT100 : (0 : ℝ) ^
      (get_absolute_airmass (get_relative_airmass 95) 101325.0) = 0 :=
    Real.zero_rpow (ne_of_gt habs_pos)
  unfold campbell_norman_ghi campbell_norman_dhi campbell_norman_dni
  rw [ht0, ht100, hT100, hcos]
  nlinarith [mul_pos hsin_pos hT0]

/-- C6 (amended): with the solar position, pressure and
extraterrestrial irradiance held fixed, the Campbell-Norman DNI is
monotonically non-increasing in cloud cover for every pair `c1 ≤ c2`
in `[0, 100]` whenever the absolute airmass is nonnegative, and the
GHI is monotonically non-increasing whenever additionally the cosine
of the apparent zenith is nonnegative (sun at or above the horizon);
below the horizon the GHI ordering can reverse. -/
theorem campbell_norman_monotone (z c1 c2 pressure dni_extra : ℝ)
    (ham : 0 ≤ get_absolute_airmass (get_relative_airmass z) pressure)
    (hE : 0 ≤ dni_extra) (hc1 : 0 ≤ c1) (h12 : c1 ≤ c2) (hc2 : c2 ≤ 100) :
    campbell_norman_dni z c2 pressure dni_extra ≤
      campbell_norman_dni z c1 pressure dni_extra ∧
    (0 ≤ Real.cos (radiansOf z) →
      campbell_norman_ghi z c2 pressure dni_extra ≤
        campbell_norman_ghi z c1 pressure dni_extra) := by
  have ht2 : 0 ≤ cloud_cover_to_transmittance_linear c2 := by
    unfold cloud_cover_to_transmittance_linear
    have h1 : (0:ℝ) ≤ (100.0 - c2) / 100.0 :=
      div_nonneg (by linarith) (by norm_num)
    nlinarith
  have ht12 : cloud_cover_to_transmittance_linear c2 ≤
      cloud_cover_to_transmittance_linear c1 := by
    unfold cloud_cover_to_transmittance_linear
    nlinarith
  have hT : cloud_cover_to_transmittance_linear c2 ^
        get_absolute_airmass (get_relative_airmass z) pressure ≤
      cloud_cover_to_transmittance_linear c1 ^
        get_absolute_airmass (get_relative_airmass z) pressure :=
    Real.rpow_le_rpow ht2 ht12 ham
  constructor
  · unfold campbell_norman_dni
    exact mul_le_mul_of_nonneg_left hT hE
  · intro hcz
    unfold campbell_norman_ghi campbell_norman_dhi campbell_norman_dni
    nlinarith [mul_nonneg (mul_nonneg hE hcz) (sub_nonneg.2 hT)]

/-- C6 witness: at zenith 0 (sun overhead) full cloud cover gives DNI
and GHI no larger than the clear values. -/
theorem campbell_norman_monotone_witness :
    campbell_norman_dni 0 100 101325.0 1367.0 ≤
      campbell_norman_dni 0 0 101325.0 1367.0 ∧
    campbell_norman_ghi 0 100 101325.0 1367.0 ≤
      campbell_norman_ghi 0 0 101325.0 1367.0 := by
  have h := campbell_norman_monotone 0 0 100 101325.0 1367.0
    (by unfold get_absolute_airmass get_relative_airmass
        rw [show radiansOf 0 = 0 by unfold radiansOf; ring, Real.cos_zero]
        have hge : (0:ℝ) ≤ (96.07995 - 0 : ℝ) ^ (-(1.6364:ℝ)) :=
          Real.rpow_nonneg (by norm_num) _
        positivity)
    (by norm_num) (by norm_num) (by norm_num) (by norm_num)
  exact ⟨h.1, h.2
    (by rw [show radiansOf 0 = 0 by unfold radiansOf; ring, Real.cos_zero]
        norm_num)⟩
